import Mathlib

/-!
Verification development for the Jarvis conversational-relay bot.

The repository contains two near-identical iterations of the relay:
`bot.py` (v1.0.69) and the unnamed `bot 2.py` (v1.0.70), plus the
`threat.py` preflight guard for the self-update pipeline.  This file
gives a shallow embedding of the core functions:

* `Bot.process_query` / `V70.process_query` — the query orchestrator of
  each iteration (rolling history, help trigger, upstream call, the
  overflow-retry protocol and error classification).  The upstream
  provider is modelled as a function from the call index and the prompt
  string to an outcome; the orchestrator result records the returned
  reply (or a propagated exception), the new history, and the list of
  prompts actually sent upstream.
* `Bot.rate_limit` / `V70.rate_limit` — the inline per-user rate-limit
  prefix of each `process_query` (bot.py lines 98-102, bot 2.py
  lines 54-58), lifted into an explicit function of the stored
  timestamp and the current clock readings.  bot.py reads the event
  loop clock but stores `datetime.utcnow()` timestamps, so both clock
  values appear as separate arguments.
* `ai_health_check` and `guarded_restart` — the preflight gate of
  `threat.py`, producing the trace of user-visible replies and
  side-effecting steps as a list of events.
* `V70.restart_handler` — the self-update pipeline of bot 2.py
  (git pull → pip install → diff-stat → hot restart), with the external
  subprocess runner modelled as a function from the command line to a
  `CmdResult` and the behaviour recorded as an event trace.
-/

/-! ### String helpers (Python `str` operations used by the source) -/

/-- Python `str.lower()` restricted to ASCII case folding. -/
def lowerStr (s : String) : String := String.mk (s.toList.map Char.toLower)

/-- Helper for `containsSub`: needle occurs at some position of hay. -/
def containsSubAux (needle : List Char) : List Char → Bool
  | [] => needle.isEmpty
  | c :: rest => needle.isPrefixOf (c :: rest) || containsSubAux needle rest

/-- Python `needle in hay` substring test. -/
def containsSub (hay needle : String) : Bool :=
  containsSubAux needle.toList hay.toList

/-- Python `\s` whitespace class (ASCII part). -/
def isPySpace (c : Char) : Bool :=
  c = ' ' || c = '\t' || c = '\n' || c = '\r' || c = '\x0b' || c = '\x0c'

/-- Python `str.strip()`. -/
def pyStrip (s : String) : String :=
  String.mk (((s.toList.dropWhile isPySpace).reverse.dropWhile isPySpace).reverse)

/-- Helper for `pySplitlines`: scan accumulating the current line (reversed). -/
def splitLinesAux : List Char → List Char → List String
  | [], acc => if acc.isEmpty then [] else [String.mk acc.reverse]
  | '\r' :: '\n' :: rest, acc => String.mk acc.reverse :: splitLinesAux rest []
  | '\r' :: rest, acc => String.mk acc.reverse :: splitLinesAux rest []
  | '\n' :: rest, acc => String.mk acc.reverse :: splitLinesAux rest []
  | '\x0b' :: rest, acc => String.mk acc.reverse :: splitLinesAux rest []
  | '\x0c' :: rest, acc => String.mk acc.reverse :: splitLinesAux rest []
  | c :: rest, acc => splitLinesAux rest (c :: acc)

/-- Python `str.splitlines()` over the ASCII line boundaries
`\n`, `\r\n`, `\r`, `\x0b`, `\x0c` (the exotic Unicode boundaries are
not used by the texts in scope). -/
def pySplitlines (s : String) : List String := splitLinesAux s.toList []

/-- Python `str.capitalize()` (ASCII): first char upper, rest lower. -/
def pyCapitalize (s : String) : String :=
  match s.toList with
  | [] => ""
  | c :: rest => String.mk (c.toUpper :: rest.map Char.toLower)

/-- Python slice `s[:7]`. -/
def pyTake7 (s : String) : String := String.mk (s.toList.take 7)

/-! ### Data model -/

/-- One history entry: the `{"role": ..., "content": ...}` dict of the
source, with `role ∈ {"user", "bot"}`. -/
structure Turn where
  role : String
  content : String
  deriving DecidableEq

/-- The upstream provider's response object: an optional `message`
attribute (`getattr(resp, "message", ...)`) and the object's `str()`
form. -/
structure Resp where
  message : Option String
  toStr : String
  deriving DecidableEq

/-- Exceptions the upstream call can raise: `safone_errors.GenericApiError`
(carrying its `str(e)` text) or any other exception (carrying
`type(e).__name__`). -/
inductive Exn where
  | genericApiError (detail : String)
  | other (name : String)
  deriving DecidableEq

/-- Outcome of one upstream `api.chatgpt(prompt)` call. -/
inductive CallResult where
  | success (resp : Resp)
  | failure (e : Exn)
  deriving DecidableEq

/-- Result of `process_query`: either a returned reply string, or an
exception that escapes the function to its caller. -/
inductive ProcResult where
  | reply (s : String)
  | raised (e : Exn)
  deriving DecidableEq

/-- `MAX_HISTORY = 6` — rolling context size (both iterations). -/
def MAX_HISTORY : Nat := 6

/-- `MIN_INTERVAL = 1.0` — seconds between messages per user. -/
def MIN_INTERVAL : Rat := 1

/-- Bounded append: `hist.append(t); if len(hist) > MAX_HISTORY:
hist.popleft()` (bot.py lines 106-108); also the effect of one `append`
on a `deque(maxlen=MAX_HISTORY)` (bot 2.py line 60). -/
def trimAppend (h : List Turn) (t : Turn) : List Turn :=
  let h2 := h ++ [t]
  if h2.length > MAX_HISTORY then h2.tail else h2

/-- Keywords of the natural help trigger (bot.py line 111). -/
def helpKeywords : List String := ["help", "what can you do", "how to use"]

/-- `any(kw in text.lower() for kw in ("help", "what can you do", "how to use"))`. -/
def helpTrigger (text : String) : Bool :=
  helpKeywords.any (fun kw => containsSub (lowerStr text) kw)

/-- The fixed help reply of bot.py (lines 112-119). -/
def HELP_TEXT : String :=
  "🤖 *Jarvis Help*\n" ++
  " • Type any question—no prefix needed.\n" ++
  " • I address you as Master/Sir/Chief.\n" ++
  " • I remember our chat & show response times.\n" ++
  " • Use the buttons below for feedback or retry.\n" ++
  " • Say “Jarvis restart” to pull updates & reboot."

/-- bot.py prompt builder (lines 122-129): persona preamble, then one
`Master:`/`Jarvis:` line per turn, terminated by `Jarvis:`. -/
def promptOfBot (hist : List Turn) : String :=
  let pre := "You are Jarvis, a dutiful AI assistant. " ++
    "Always address the user respectfully as Master, Sir, or Chief.\n\n"
  (hist.foldl (fun acc m =>
    acc ++ (if m.role = "user" then "Master" else "Jarvis") ++ ": " ++ m.content ++ "\n") pre)
    ++ "Jarvis:"

/-- bot 2.py prompt builder (line 62): capitalized role labels joined by
newlines, terminated by `\nJarvis:`. -/
def promptOfV70 (hist : List Turn) : String :=
  String.intercalate "\n" (hist.map (fun m => pyCapitalize m.role ++ ": " ++ m.content))
    ++ "\nJarvis:"

/-- Reply extraction `getattr(resp, "message", None) or str(resp)`
(bot.py line 147, bot 2.py line 78): the `message` field when present
and non-empty, otherwise the stringified response object. -/
def answerOf (resp : Resp) : String :=
  match resp.message with
  | some m => if m = "" then resp.toStr else m
  | none => resp.toStr

/-- Substring by which the source detects a context-overflow error. -/
def OVERFLOW_MARKER : String := "reduce the context"

namespace Bot

/-- bot.py lines 98-102.  `lastActive` is the stored
`LAST_ACTIVE[user_id]` value as its `.timestamp()` (absent for a new
user); `nowLoop` is `asyncio.get_event_loop().time()`；`utcAtRead` is
the `datetime.utcnow()` taken as the `.get` default and `utcAtWrite`
the one stored back.  Returns the sleep duration and the new stored
timestamp. -/
def rate_limit (lastActive : Option Rat) (nowLoop utcAtRead utcAtWrite : Rat) : Rat × Rat :=
  let last_ts := lastActive.getD utcAtRead
  let wait := if nowLoop - last_ts < MIN_INTERVAL then MIN_INTERVAL - (nowLoop - last_ts) else 0
  (wait, utcAtWrite)

/-- bot.py `process_query` lines 104-149 (the part after the rate-limit
prefix, which is `Bot.rate_limit`).  Returns the result, the new
history, and the prompts sent upstream (in order). -/
def process_query (hist : List Turn) (text : String)
    (provider : Nat → String → CallResult) :
    ProcResult × List Turn × List String :=
  let hist1 := trimAppend hist ⟨"user", text⟩
  if helpTrigger text then (ProcResult.reply HELP_TEXT, hist1, [])
  else
    let prompt := promptOfBot hist1
    match provider 0 prompt with
    | CallResult.success resp =>
        let answer := answerOf resp
        -- NOTE: the responder-turn append at line 148 has no trim step.
        (ProcResult.reply answer, hist1 ++ [⟨"bot", answer⟩], [prompt])
    | CallResult.failure (Exn.genericApiError detail) =>
        match containsSub (lowerStr detail) OVERFLOW_MARKER, hist1.getLast? with
        | true, some lastMsg =>
            let retryPrompt := "Master: " ++ lastMsg.content ++ "\nJarvis:"
            match provider 1 retryPrompt with
            | CallResult.success resp =>
                let answer := answerOf resp
                (ProcResult.reply answer, [lastMsg, ⟨"bot", answer⟩], [prompt, retryPrompt])
            | CallResult.failure e2 =>
                -- The retry runs inside the `except GenericApiError` handler:
                -- an exception raised there escapes the whole try statement.
                (ProcResult.raised e2, [lastMsg], [prompt, retryPrompt])
        | _, _ =>
            (ProcResult.reply "🚨 Master, AI service error—please try again.", hist1, [prompt])
    | CallResult.failure (Exn.other name) =>
        (ProcResult.reply ("🚨 Master, something went wrong: " ++ name), hist1, [prompt])

end Bot

namespace V70

/-- bot 2.py lines 54-58: event-loop clock only, default anchor `0`. -/
def rate_limit (lastTs : Option Rat) (now : Rat) : Rat × Rat :=
  let last := lastTs.getD 0
  let wait := if now - last < MIN_INTERVAL then MIN_INTERVAL - (now - last) else 0
  (wait, now)

/-- bot 2.py `process_query` lines 60-80 (after the rate-limit prefix
`V70.rate_limit`).  The history is a `deque(maxlen=MAX_HISTORY)`, so
both appends are bounded. -/
def process_query (hist : List Turn) (text : String)
    (provider : Nat → String → CallResult) :
    ProcResult × List Turn × List String :=
  let hist1 := trimAppend hist ⟨"user", text⟩
  let prompt := promptOfV70 hist1
  match provider 0 prompt with
  | CallResult.success resp =>
      let answer := answerOf resp
      (ProcResult.reply answer, trimAppend hist1 ⟨"bot", answer⟩, [prompt])
  | CallResult.failure (Exn.genericApiError detail) =>
      match containsSub (lowerStr detail) OVERFLOW_MARKER, hist1.getLast? with
      | true, some lastMsg =>
          let retryPrompt := "User: " ++ lastMsg.content ++ "\nJarvis:"
          match provider 1 retryPrompt with
          | CallResult.success resp =>
              let answer := answerOf resp
              (ProcResult.reply answer, trimAppend [lastMsg] ⟨"bot", answer⟩, [prompt, retryPrompt])
          | CallResult.failure e2 =>
              (ProcResult.raised e2, [lastMsg], [prompt, retryPrompt])
      | _, _ =>
          (ProcResult.reply "🚨 AI service error, please try again later.", hist1, [prompt])
  | CallResult.failure (Exn.other _) =>
      (ProcResult.reply "🚨 Unexpected server error.", hist1, [prompt])

end V70

/-- Iterate `Bot.process_query` over a list of inbound texts, threading
the per-user history (the provider script is shared across calls). -/
def runBot (hist : List Turn) (texts : List String)
    (provider : Nat → String → CallResult) : List Turn :=
  texts.foldl (fun h t => (Bot.process_query h t provider).2.1) hist

/-! ### Preflight gate (`threat.py`) and update pipeline (bot 2.py) -/

/-- Observable events of the restart/update path: a Telegram reply sent
to the requester, an external command invocation, closing the network
sessions (`shutdown()`), and the `os.execv` process replacement. -/
inductive Ev where
  | reply (s : String)
  | cmd (args : List String)
  | sessionClose
  | execRestart
  deriving DecidableEq

/-- Result of `subprocess.run(cmd, capture_output=True, text=True)`. -/
structure CmdResult where
  returncode : Int
  stdout : String
  stderr : String
  deriving DecidableEq

/-- `str(e)` of a modelled exception (used in f-string interpolation). -/
def exnText : Exn → String
  | Exn.genericApiError d => d
  | Exn.other n => n

/-- `getattr(resp, "message", str(resp))` — threat.py line 53 (note: the
default here is `str(resp)`, with no `or` fallback for an empty field). -/
def healthText (resp : Resp) : String :=
  match resp.message with
  | some m => m
  | none => resp.toStr

/-- Python word character `\w` (ASCII part), for `\b` boundaries. -/
def isWordChar (c : Char) : Bool := c.isAlphanum || c = '_'

/-- `no issues` occurs at the head of `cs` with a right word boundary. -/
def noIssuesHere (cs : List Char) : Bool :=
  "no issues".toList.isPrefixOf cs &&
    (match cs.drop 9 with
     | [] => true
     | c :: _ => !isWordChar c)

/-- Scan for `\bno issues\b`; `prev` is the character before the
current position (none at the start of the text). -/
def searchNoIssues (prev : Option Char) : List Char → Bool
  | [] => false
  | c :: rest =>
      ((match prev with | none => true | some c0 => !isWordChar c0) &&
        noIssuesHere (c :: rest)) || searchNoIssues (some c) rest

/-- `re.search(r"\bno issues\b", text, re.I)` — threat.py line 59
(case-insensitivity via searching the lowercased text; ASCII `\w`). -/
def hasNoIssuesMarker (text : String) : Bool :=
  searchNoIssues none (lowerStr text).toList

/-- Tail of the bullet regex after the leading digit(s):
more digits, then `\.`, then `\s`. -/
def bulletNumTail : List Char → Bool
  | '.' :: c :: _ => isPySpace c
  | c :: rest => c.isDigit && bulletNumTail rest
  | [] => false

/-- `re.match(r"^(\-|\*|\d+\.)\s+", l)` — a bullet-style line. -/
def isBulletLine (l : String) : Bool :=
  match l.toList with
  | '-' :: c :: _ => isPySpace c
  | '*' :: c :: _ => isPySpace c
  | c :: rest => c.isDigit && bulletNumTail rest
  | [] => false

/-- threat.py lines 57-58: the non-empty stripped lines of the response
that look like bullets. -/
def bulletFindings (text : String) : List String :=
  (((pySplitlines text).map pyStrip).filter (fun l => l ≠ "")).filter isBulletLine

/-- `ai_health_check` — threat.py lines 32-61, as a function of the
outcome of the one upstream review call.  Returns the diagnostics list
(empty = safe). -/
def ai_health_check (outcome : CallResult) : List String :=
  match outcome with
  | CallResult.failure e => ["AI health‑check failed: " ++ exnText e]
  | CallResult.success resp =>
      let text := healthText resp
      let issues := bulletFindings text
      if issues.isEmpty && hasNoIssuesMarker text then []
      else if issues.isEmpty then [pyStrip text] else issues

/-- Environment of one `guarded_restart` run: the outcome of
`py_compile.compile("bot.py", doraise=True)` (`none` = compiled,
`some tb` = the `traceback.format_exc()` text), the flake8 return code
and captured output, and the outcome of the AI review call. -/
structure PreflightEnv where
  syntaxErr : Option String
  lintRc : Int
  lintStderr : String
  lintStdout : String
  aiOutcome : CallResult
  deriving DecidableEq

/-- The numbered-issues abort message — threat.py lines 110-113. -/
def numberIssues (issues : List String) : String :=
  (issues.enum.foldl
    (fun acc p => acc ++ toString (p.1 + 1) ++ ". " ++ p.2 ++ "\n")
    "🙅‍♂️ Hold on, Master—I’ve spotted some issues:\n")
    ++ "\nPlease fix these before we restart."

/-- `guarded_restart` — threat.py lines 67-118.  `origRestart` is the
event trace of the delegated original restart handler; it is appended
only when every check passes. -/
def guarded_restart (env : PreflightEnv) (origRestart : List Ev) : List Ev :=
  Ev.reply "🔎 Running pre‑restart health checks…" ::
    (match env.syntaxErr with
     | some err => [Ev.reply ("❌ Syntax error in bot.py:\n```" ++ err ++ "```")]
     | none =>
        if env.lintRc ≠ 0 then
          [Ev.reply ("❌ Lint errors detected:\n```" ++
            (if env.lintStderr ≠ "" then env.lintStderr else env.lintStdout) ++ "```")]
        else
          let issues := ai_health_check env.aiOutcome
          if issues.isEmpty then
            Ev.reply "✅ All checks passed—restarting now!" :: origRestart
          else
            [Ev.reply (numberIssues issues)])

namespace V70

/-- `restart_handler` — bot 2.py lines 91-118.  `run` models
`subprocess.run(cmd, cwd=cwd, capture_output=True, text=True)`; the
returned list is the ordered trace of replies, command invocations,
session shutdown and the final process replacement. -/
def restart_handler (run : List String → CmdResult) : List Ev :=
  let pull := run ["git", "pull"]
  Ev.reply "🔄 Pulling latest code…" ::
  Ev.cmd ["git", "pull"] ::
    (if pull.returncode ≠ 0 then
      [Ev.reply ("❌ Git pull failed:\n```" ++ pull.stderr ++ "```")]
    else
      let deps := run ["pip3", "install", "-r", "requirements.txt"]
      Ev.reply ("✅ Git pull done:\n```" ++ pull.stdout ++ "```") ::
      Ev.reply "🔧 Installing dependencies…" ::
      Ev.cmd ["pip3", "install", "-r", "requirements.txt"] ::
        (if deps.returncode ≠ 0 then
          [Ev.reply ("❌ `pip install -r requirements.txt` failed:\n```" ++ deps.stderr ++ "```")]
        else
          let up := run ["pip3", "install", "--upgrade", "safoneapi"]
          let upMsg := if up.returncode ≠ 0 then
              Ev.reply ("⚠️ safoneapi upgrade failed:\n```" ++ up.stderr ++ "```")
            else Ev.reply "✅ safoneapi is up to date."
          let old := pyStrip (run ["git", "rev-parse", "HEAD@\x7b1\x7d"]).stdout
          let newRev := pyStrip (run ["git", "rev-parse", "HEAD"]).stdout
          let statRaw := pyStrip (run ["git", "diff", "--stat", old, newRev]).stdout
          let stat := if statRaw = "" then "No changes" else statRaw
          Ev.reply "✅ Dependencies installed." ::
          Ev.reply "⬆️ Upgrading safoneapi…" ::
          Ev.cmd ["pip3", "install", "--upgrade", "safoneapi"] ::
          upMsg ::
          Ev.cmd ["git", "rev-parse", "HEAD@\x7b1\x7d"] ::
          Ev.cmd ["git", "rev-parse", "HEAD"] ::
          Ev.cmd ["git", "diff", "--stat", old, newRev] ::
          Ev.reply ("📦 Changes " ++ pyTake7 old ++ "→" ++ pyTake7 newRev ++ ":\n```" ++ stat ++ "```") ::
          Ev.reply "🔄 Restarting…" ::
          Ev.sessionClose ::
          [Ev.execRestart]))

end V70

/-! ### Concrete environments used in evaluations and witnesses -/

/-- A provider whose every call succeeds with `message = "ok"`. -/
def okProvider : Nat → String → CallResult :=
  fun _ _ => CallResult.success ⟨some "ok", "ok"⟩

/-- A provider that raises the context-overflow `GenericApiError` on
every call. -/
def alwaysOverflow : Nat → String → CallResult :=
  fun _ _ => CallResult.failure (Exn.genericApiError "Please reduce the context and resend")

/-- A provider that raises the overflow error on the first call and a
`TimeoutError` on the retry. -/
def overflowThenCrash : Nat → String → CallResult :=
  fun i _ =>
    if i = 0 then CallResult.failure (Exn.genericApiError "you must reduce the context")
    else CallResult.failure (Exn.other "TimeoutError")

/-- A provider that raises the overflow error on the first call and
succeeds with `message = "ok"` on the retry. -/
def overflowThenOk : Nat → String → CallResult :=
  fun i _ =>
    if i = 0 then
      CallResult.failure (Exn.genericApiError "Error: please reduce the context of your message")
    else CallResult.success ⟨some "ok", "ok"⟩

/-! ### Helper lemmas -/

/-- The bounded append always keeps the new element as the tail entry. -/
theorem trimAppend_getLast (h : List Turn) (t : Turn) :
    (trimAppend h t).getLast? = some t := by
  unfold trimAppend
  by_cases hc : (h ++ [t]).length > MAX_HISTORY
  · simp only [hc, if_true]
    cases h with
    | nil => simp [MAX_HISTORY] at hc
    | cons a as =>
      simp only [List.cons_append, List.tail_cons]
      exact List.getLast?_concat as
  · simp only [hc, if_false]
    exact List.getLast?_concat h

/-! ### Claims -/

/-- Claim C1: with a provider that always raises the overflow error,
`process_query` does make exactly two upstream calls and never a third;
but contrary to the claim it does not return the generic service-error
reply — the retry's `GenericApiError` is raised inside the
`except` handler and escapes `process_query` (both iterations).  This
theorem evaluates the code at that failing input. -/
theorem c1_overflow_retry_eval :
    (Bot.process_query [] "hi" alwaysOverflow).2.2.length = 2 ∧
    (Bot.process_query [] "hi" alwaysOverflow).1 =
      ProcResult.raised (Exn.genericApiError "Please reduce the context and resend") ∧
    (Bot.process_query [] "hi" alwaysOverflow).1 ≠
      ProcResult.reply "🚨 Master, AI service error—please try again." ∧
    (V70.process_query [] "hi" alwaysOverflow).2.2.length = 2 ∧
    (V70.process_query [] "hi" alwaysOverflow).1 =
      ProcResult.raised (Exn.genericApiError "Please reduce the context and resend") ∧
    (V70.process_query [] "hi" alwaysOverflow).1 ≠
      ProcResult.reply "🚨 AI service error, please try again later." := by
  decide

/-- Claim C2: `process_query` does not always swallow provider
failures — when the first call raises the overflow error and the retry
raises any exception, the retry's exception propagates to the caller
(it is raised inside the `except GenericApiError` handler, outside the
reach of both `except` clauses).  This theorem evaluates the code at
that failing input: the result is a raised `TimeoutError`, not a reply
string. -/
theorem c2_retry_exception_propagates_eval :
    (Bot.process_query [] "hola" overflowThenCrash).1 =
      ProcResult.raised (Exn.other "TimeoutError") ∧
    (∀ s, (Bot.process_query [] "hola" overflowThenCrash).1 ≠ ProcResult.reply s) ∧
    (V70.process_query [] "hola" overflowThenCrash).1 =
      ProcResult.raised (Exn.other "TimeoutError") ∧
    (∀ s, (V70.process_query [] "hola" overflowThenCrash).1 ≠ ProcResult.reply s) := by
  have hB : (Bot.process_query [] "hola" overflowThenCrash).1 =
      ProcResult.raised (Exn.other "TimeoutError") := by decide
  have hV : (V70.process_query [] "hola" overflowThenCrash).1 =
      ProcResult.raised (Exn.other "TimeoutError") := by decide
  refine ⟨hB, ?_, hV, ?_⟩
  · intro s h
    rw [hB] at h
    exact ProcResult.noConfusion h
  · intro s h
    rw [hV] at h
    exact ProcResult.noConfusion h

/-- Claim C3: in bot.py the bound `len(history) ≤ MAX_HISTORY` fails
after a responder-turn append — only the requester-turn append is
trimmed (lines 107-108), while line 148 appends the reply untrimmed.
Four successful exchanges starting from an empty history leave 7 turns
(and each further exchange grows the history by one).  This theorem
evaluates the code at that failing input.  (The bot 2.py iteration uses
`deque(maxlen=6)` and keeps the invariant.) -/
theorem c3_history_bound_eval :
    (runBot [] ["a", "b", "c", "d"] okProvider).length = 7 ∧
    ¬ (runBot [] ["a", "b", "c", "d"] okProvider).length ≤ MAX_HISTORY := by
  decide

/-- Claim C4: bot.py's rate limiter compares the event-loop monotonic
clock (`now_ts`, seconds since boot) with an epoch timestamp
(`LAST_ACTIVE[...].timestamp()`).  For two admissions at loop times 100
and 102 — spaced `2 ≥ MIN_INTERVAL` apart, with the epoch clock at
`1700000000` — the second admission's wait is `1699999899` seconds, not
the zero wait the claim requires.  This theorem evaluates the code at
that failing input (the stored timestamp is updated, but the wait is
astronomically positive). -/
theorem c4_rate_limit_eval :
    (Bot.rate_limit none 100 1700000000 1700000000).2 = 1700000000 ∧
    Bot.rate_limit (some 1700000000) 102 1700000002 1700000002 =
      (1699999899, 1700000002) ∧
    MIN_INTERVAL ≤ (102 : Rat) - 100 ∧
    (0 : Rat) < 1699999899 := by
  refine ⟨rfl, ?_, by norm_num [MIN_INTERVAL], by norm_num⟩
  unfold Bot.rate_limit
  norm_num [MIN_INTERVAL]

/-- Claim C5: when the candidate source fails the syntax check,
`guarded_restart` replies with the parser diagnostic and stops: the
trace contains no external command, no session shutdown and no process
replacement, whatever the delegated restart handler would have done —
so no pull, dependency-install or process-replacement side effect is
invoked and no source, dependency or process state is mutated. -/
theorem c5_syntax_abort (env : PreflightEnv) (origRestart : List Ev) (err : String)
    (hsyn : env.syntaxErr = some err) :
    guarded_restart env origRestart =
      [Ev.reply "🔎 Running pre‑restart health checks…",
       Ev.reply ("❌ Syntax error in bot.py:\n```" ++ err ++ "```")] ∧
    (∀ args, Ev.cmd args ∉ guarded_restart env origRestart) ∧
    Ev.sessionClose ∉ guarded_restart env origRestart ∧
    Ev.execRestart ∉ guarded_restart env origRestart := by
  have htrace : guarded_restart env origRestart =
      [Ev.reply "🔎 Running pre‑restart health checks…",
       Ev.reply ("❌ Syntax error in bot.py:\n```" ++ err ++ "```")] := by
    unfold guarded_restart
    rw [hsyn]
  refine ⟨htrace, ?_, ?_, ?_⟩
  · intro args
    simp [htrace]
  · simp [htrace]
  · simp [htrace]

/-- A preflight environment whose syntax check failed. -/
def envSyntaxFail : PreflightEnv :=
  ⟨some "SyntaxError: invalid syntax (bot.py, line 5)", 0, "", "",
    CallResult.success ⟨some "No issues found.", "r"⟩⟩

/-- Witness for `c5_syntax_abort` at a concrete environment and
delegate trace. -/
theorem c5_syntax_abort_witness :
    envSyntaxFail.syntaxErr = some "SyntaxError: invalid syntax (bot.py, line 5)" ∧
    guarded_restart envSyntaxFail [Ev.cmd ["git", "pull"], Ev.execRestart] =
      [Ev.reply "🔎 Running pre‑restart health checks…",
       Ev.reply ("❌ Syntax error in bot.py:\n```" ++
         "SyntaxError: invalid syntax (bot.py, line 5)" ++ "```")] ∧
    Ev.execRestart ∉ guarded_restart envSyntaxFail [Ev.cmd ["git", "pull"], Ev.execRestart] := by
  refine ⟨rfl, ?_, ?_⟩
  · exact (c5_syntax_abort envSyntaxFail [Ev.cmd ["git", "pull"], Ev.execRestart] _ rfl).1
  · exact (c5_syntax_abort envSyntaxFail [Ev.cmd ["git", "pull"], Ev.execRestart] _ rfl).2.2.2

/-- Claim C6: in the bot 2.py update pipeline, a failing `git pull`
(non-zero return code) aborts the run with the pull's stderr; the
dependency-install commands and the diff computation are never
invoked, and the process is not replaced.  (In the bot.py iteration the
restart handler crashes on its first `rev-parse` subprocess expression
— `.communicate()` is called on the coroutine object — before `git
pull` ever runs, so its pull step cannot fail.) -/
theorem c6_pull_failure_aborts (run : List String → CmdResult)
    (hfail : (run ["git", "pull"]).returncode ≠ 0) :
    V70.restart_handler run =
      [Ev.reply "🔄 Pulling latest code…",
       Ev.cmd ["git", "pull"],
       Ev.reply ("❌ Git pull failed:\n```" ++ (run ["git", "pull"]).stderr ++ "```")] ∧
    Ev.cmd ["pip3", "install", "-r", "requirements.txt"] ∉ V70.restart_handler run ∧
    Ev.cmd ["pip3", "install", "--upgrade", "safoneapi"] ∉ V70.restart_handler run ∧
    (∀ a b, Ev.cmd ["git", "diff", "--stat", a, b] ∉ V70.restart_handler run) ∧
    Ev.execRestart ∉ V70.restart_handler run := by
  have htrace : V70.restart_handler run =
      [Ev.reply "🔄 Pulling latest code…",
       Ev.cmd ["git", "pull"],
       Ev.reply ("❌ Git pull failed:\n```" ++ (run ["git", "pull"]).stderr ++ "```")] := by
    unfold V70.restart_handler
    simp only [hfail, if_true, ne_eq, not_false_eq_true]
  refine ⟨htrace, ?_, ?_, ?_, ?_⟩
  · simp [htrace]
  · simp [htrace]
  · intro a b
    simp [htrace]
  · simp [htrace]

/-- A subprocess environment whose `git pull` fails. -/
def failingPullRun : List String → CmdResult :=
  fun args =>
    if args = ["git", "pull"] then ⟨1, "", "fatal: unable to access remote"⟩
    else ⟨0, "", ""⟩

/-- Witness for `c6_pull_failure_aborts` at a concrete subprocess
environment. -/
theorem c6_pull_failure_aborts_witness :
    (failingPullRun ["git", "pull"]).returncode ≠ 0 ∧
    V70.restart_handler failingPullRun =
      [Ev.reply "🔄 Pulling latest code…",
       Ev.cmd ["git", "pull"],
       Ev.reply ("❌ Git pull failed:\n```" ++ "fatal: unable to access remote" ++ "```")] ∧
    Ev.cmd ["pip3", "install", "-r", "requirements.txt"] ∉ V70.restart_handler failingPullRun ∧
    Ev.execRestart ∉ V70.restart_handler failingPullRun := by
  have h := c6_pull_failure_aborts failingPullRun (by decide)
  exact ⟨by decide, h.1, h.2.1, h.2.2.2.2⟩

/-- Claim C7: the review stage is clean (empty diagnostics) exactly
when the call succeeded and its text both carries the case-insensitive
`no issues` marker and has no bullet-style lines; and whenever the
diagnostics are non-empty — bullets, a marker-less response, or a
failed review call — a run that reached the review stage aborts with
the numbered diagnostics and never reaches the delegated restart (no
commands, no shutdown, no process replacement). -/
theorem c7_review_gate (outcome : CallResult) (env : PreflightEnv) (origRestart : List Ev) :
    (ai_health_check outcome = [] ↔
      (∃ resp, outcome = CallResult.success resp ∧
        hasNoIssuesMarker (healthText resp) = true ∧
        bulletFindings (healthText resp) = [])) ∧
    (env.syntaxErr = none → env.lintRc = 0 → env.aiOutcome = outcome →
      ai_health_check outcome ≠ [] →
      guarded_restart env origRestart =
        [Ev.reply "🔎 Running pre‑restart health checks…",
         Ev.reply (numberIssues (ai_health_check outcome))] ∧
      (∀ args, Ev.cmd args ∉ guarded_restart env origRestart) ∧
      Ev.execRestart ∉ guarded_restart env origRestart) := by
  constructor
  · cases outcome with
    | failure e =>
        simp [ai_health_check]
    | success resp =>
        simp only [ai_health_check]
        by_cases hb : (bulletFindings (healthText resp)).isEmpty
        · by_cases hm : hasNoIssuesMarker (healthText resp)
          · simp [hb, hm, List.isEmpty_iff.mp hb]
          · simp [hb, hm]
        · simp only [hb, Bool.false_and, if_false, Bool.not_eq_true]
          constructor
          · intro h
            exact absurd (List.isEmpty_iff.mpr h) (by simp [hb])
          · rintro ⟨resp', hr, -, hempty⟩
            cases hr
            exact absurd (List.isEmpty_iff.mpr hempty) (by simp [hb])
  · intro hsyn hlint hai hne
    have htrace : guarded_restart env origRestart =
        [Ev.reply "🔎 Running pre‑restart health checks…",
         Ev.reply (numberIssues (ai_health_check outcome))] := by
      unfold guarded_restart
      rw [hsyn, hlint, hai]
      simp [List.isEmpty_iff, hne]
    refine ⟨htrace, ?_, ?_⟩
    · intro args
      simp [htrace]
    · simp [htrace]

/-- A review response with one bullet-style finding. -/
def reviewResp : Resp :=
  ⟨some "Here is what I found:\n- a possible crash in the restart handler", "r"⟩

/-- A preflight environment that passed syntax and lint and got
`reviewResp` from the review call. -/
def envAfterLint : PreflightEnv :=
  ⟨none, 0, "", "", CallResult.success reviewResp⟩

/-- Witness for `c7_review_gate` at a concrete bulleted review
response: the diagnostics are non-empty and the guarded restart aborts
without reaching the delegate. -/
theorem c7_review_gate_witness :
    ai_health_check (CallResult.success reviewResp) ≠ [] ∧
    Ev.execRestart ∉ guarded_restart envAfterLint [Ev.cmd ["git", "pull"], Ev.execRestart] ∧
    (¬ (hasNoIssuesMarker (healthText reviewResp) = true ∧
        bulletFindings (healthText reviewResp) = [])) := by
  have h := c7_review_gate (CallResult.success reviewResp) envAfterLint
    [Ev.cmd ["git", "pull"], Ev.execRestart]
  have hne : ai_health_check (CallResult.success reviewResp) ≠ [] := by decide
  refine ⟨hne, (h.2 rfl rfl rfl hne).2.2, ?_⟩
  rintro ⟨hm, hb⟩
  exact hne (h.1.mpr ⟨reviewResp, rfl, hm, hb⟩)

/-- Claim C8: for any non-empty history, if the provider raises the
context-overflow error on the first call and succeeds with message
`"ok"` on the retry, `process_query` returns `"ok"` and the history
afterwards holds exactly the retained most-recent requester turn plus
the new responder turn (both iterations). -/
theorem c8_overflow_recovery (hist : List Turn) (text em rs : String)
    (provider : Nat → String → CallResult)
    (_hne : hist ≠ [])
    (hhelp : helpTrigger text = false)
    (h0 : ∀ s, provider 0 s = CallResult.failure (Exn.genericApiError em))
    (hm : containsSub (lowerStr em) OVERFLOW_MARKER = true)
    (h1 : ∀ s, provider 1 s = CallResult.success ⟨some "ok", rs⟩) :
    (Bot.process_query hist text provider).1 = ProcResult.reply "ok" ∧
    (Bot.process_query hist text provider).2.1 = [⟨"user", text⟩, ⟨"bot", "ok"⟩] ∧
    (V70.process_query hist text provider).1 = ProcResult.reply "ok" ∧
    (V70.process_query hist text provider).2.1 = [⟨"user", text⟩, ⟨"bot", "ok"⟩] := by
  have hlast := trimAppend_getLast hist ⟨"user", text⟩
  have hans : answerOf ⟨some "ok", rs⟩ = "ok" := by
    simp [answerOf]
  have htrim : trimAppend [(⟨"user", text⟩ : Turn)] ⟨"bot", "ok"⟩ =
      [⟨"user", text⟩, ⟨"bot", "ok"⟩] := by
    simp [trimAppend, MAX_HISTORY]
  simp only [Bot.process_query, V70.process_query, hhelp, Bool.false_eq_true, if_false,
    h0, hm, hlast, h1, hans, htrim, and_self, and_true, true_and]

/-- Witness for `c8_overflow_recovery` at a concrete history, text and
provider script. -/
theorem c8_overflow_recovery_witness :
    ([(⟨"user", "earlier question"⟩ : Turn)] ≠ []) ∧
    helpTrigger "hi" = false ∧
    containsSub (lowerStr "Error: please reduce the context of your message")
      OVERFLOW_MARKER = true ∧
    (Bot.process_query [⟨"user", "earlier question"⟩] "hi" overflowThenOk).1 =
      ProcResult.reply "ok" ∧
    (Bot.process_query [⟨"user", "earlier question"⟩] "hi" overflowThenOk).2.1 =
      [⟨"user", "hi"⟩, ⟨"bot", "ok"⟩] ∧
    (V70.process_query [⟨"user", "earlier question"⟩] "hi" overflowThenOk).2.1 =
      [⟨"user", "hi"⟩, ⟨"bot", "ok"⟩] := by
  have h := c8_overflow_recovery [⟨"user", "earlier question"⟩] "hi"
    "Error: please reduce the context of your message" "ok" overflowThenOk
    (by decide) (by decide) (fun s => rfl) (by decide) (fun s => rfl)
  exact ⟨by decide, by decide, by decide, h.1, h.2.1, h.2.2.2⟩

/-- A successful upstream response without a `message` attribute. -/
def respNoMessageA : Resp := ⟨none, "SafoneResponse(success=True)"⟩

/-- Another message-less response, with a different `str()` form. -/
def respNoMessageB : Resp := ⟨none, "BotResponse number two"⟩

/-- Claim C9, counterexample: when the `message` field is absent, the
reply is `str(resp)` — it varies with the response object and differs
from the generic error strings of both iterations, so the fallback is
not "a generic error string". -/
theorem c9_fallback_counterexample :
    (Bot.process_query [] "hi" (fun _ _ => CallResult.success respNoMessageA)).1 =
      ProcResult.reply "SafoneResponse(success=True)" ∧
    (Bot.process_query [] "hi" (fun _ _ => CallResult.success respNoMessageB)).1 =
      ProcResult.reply "BotResponse number two" ∧
    ("SafoneResponse(success=True)" : String) ≠ "BotResponse number two" ∧
    (Bot.process_query [] "hi" (fun _ _ => CallResult.success respNoMessageA)).1 ≠
      ProcResult.reply "🚨 Master, AI service error—please try again." ∧
    (Bot.process_query [] "hi" (fun _ _ => CallResult.success respNoMessageA)).1 ≠
      ProcResult.reply "🚨 AI service error, please try again later." ∧
    (Bot.process_query [] "hi" (fun _ _ => CallResult.success respNoMessageA)).1 ≠
      ProcResult.reply "🚨 Unexpected server error." := by
  decide

/-- Claim C9 amended: on a successful upstream call the reply is the
response's non-empty `message` field; when that field is absent or
empty the code falls back — without raising — to the stringified
response object `str(resp)` (not to a generic error string).  Both
iterations. -/
theorem c9_message_extraction (hist : List Turn) (text : String) (resp : Resp)
    (provider : Nat → String → CallResult)
    (hhelp : helpTrigger text = false)
    (hp : ∀ i s, provider i s = CallResult.success resp) :
    (∀ m, resp.message = some m → m ≠ "" →
      (Bot.process_query hist text provider).1 = ProcResult.reply m ∧
      (V70.process_query hist text provider).1 = ProcResult.reply m) ∧
    (resp.message = none ∨ resp.message = some "" →
      (Bot.process_query hist text provider).1 = ProcResult.reply resp.toStr ∧
      (V70.process_query hist text provider).1 = ProcResult.reply resp.toStr) := by
  constructor
  · intro m hm hne
    have hans : answerOf resp = m := by
      simp [answerOf, hm, hne]
    simp only [Bot.process_query, V70.process_query, hhelp, Bool.false_eq_true, if_false,
      hp, hans, and_self]
  · intro hcase
    have hans : answerOf resp = resp.toStr := by
      rcases hcase with h | h <;> simp [answerOf, h]
    simp only [Bot.process_query, V70.process_query, hhelp, Bool.false_eq_true, if_false,
      hp, hans, and_self]

/-- Witness for `c9_message_extraction`: a message-less response falls
back to `str(resp)` in both iterations. -/
theorem c9_message_extraction_witness :
    helpTrigger "hi" = false ∧
    respNoMessageA.message = none ∧
    (Bot.process_query [] "hi" (fun _ _ => CallResult.success respNoMessageA)).1 =
      ProcResult.reply "SafoneResponse(success=True)" ∧
    (V70.process_query [] "hi" (fun _ _ => CallResult.success respNoMessageA)).1 =
      ProcResult.reply "SafoneResponse(success=True)" := by
  have h := (c9_message_extraction [] "hi" respNoMessageA
    (fun _ _ => CallResult.success respNoMessageA) (by decide)
    (fun i s => rfl)).2 (Or.inl rfl)
  exact ⟨by decide, rfl, h.1, h.2⟩

/-- Claim C10: a message whose lowercased text contains one of the help
keywords gets the fixed help reply, with no upstream prompt sent; the
history keeps the freshly appended requester turn as its tail and no
responder turn is appended (bot.py only — the bot 2.py iteration has no
help trigger). -/
theorem c10_help_trigger (hist : List Turn) (text : String)
    (provider : Nat → String → CallResult)
    (h : helpTrigger text = true) :
    Bot.process_query hist text provider =
      (ProcResult.reply HELP_TEXT, trimAppend hist ⟨"user", text⟩, []) ∧
    (trimAppend hist ⟨"user", text⟩).getLast? = some ⟨"user", text⟩ := by
  refine ⟨?_, trimAppend_getLast hist ⟨"user", text⟩⟩
  simp only [Bot.process_query, h, if_true]

/-- Witness for `c10_help_trigger`: the text `"how to use this?"`
triggers the help reply with no upstream call. -/
theorem c10_help_trigger_witness :
    helpTrigger "how to use this?" = true ∧
    Bot.process_query [] "how to use this?" okProvider =
      (ProcResult.reply HELP_TEXT, [⟨"user", "how to use this?"⟩], []) ∧
    (Bot.process_query [] "how to use this?" okProvider).2.2 = [] := by
  have h := c10_help_trigger [] "how to use this?" okProvider (by decide)
  refine ⟨by decide, ?_, ?_⟩
  · rw [h.1]
    rfl
  · rw [h.1]
